import Mathlib

set_option maxRecDepth 16000

/-!
Verification of the command-generation and execution-dispatch pipeline of the
VNCagentic repository (`backend/app/agent/ai_generative_agent.py`).

The Python code is embedded shallowly: Python strings are Lean `String`s
(lists of characters), the Python `str` library operations used by the agent
(`strip`, `lower`, `replace`, `split`, `join`, `in`, `startswith`, slicing)
are modelled as executable Lean functions, the `json` module (`loads`/`dumps`)
is modelled by an executable serializer and parser over an inductive `Json`
type, and the two regular expressions the agent uses are modelled by
direct scanning functions with the exact same matching discipline.
Network effects (the generative backend and the execution boundary) are
modelled as explicit behaviour parameters; a raised Python exception is an
`Except.error`.
-/

/-- Characters treated as whitespace by Python `str.strip` / `str.split`
(ASCII fragment actually reachable here). -/
def isPySpace (c : Char) : Bool :=
  c = ' ' || c = '\t' || c = '\n' || c = '\r' || c = '\x0b' || c = '\x0c'

/-- Python `str.lstrip()` on character lists. -/
def lstripL (cs : List Char) : List Char := cs.dropWhile isPySpace

/-- Python `str.rstrip()` on character lists. -/
def rstripL (cs : List Char) : List Char := (cs.reverse.dropWhile isPySpace).reverse

/-- Python `str.strip()` on character lists. -/
def stripL (cs : List Char) : List Char := rstripL (lstripL cs)

/-- Python `str.strip()`. -/
def pyStrip (s : String) : String := String.mk (stripL s.data)

/-- ASCII lowercasing of one character (the inputs reached here are ASCII). -/
def lowerChar (c : Char) : Char :=
  if 'A' ≤ c && c ≤ 'Z' then Char.ofNat (c.toNat + 32) else c

/-- Python `str.lower()` (ASCII fragment). -/
def pyLower (s : String) : String := String.mk (s.data.map lowerChar)

/-- Python substring containment (`sub in s`) on character lists. -/
def containsL (sub : List Char) : List Char → Bool
  | [] => sub.isEmpty
  | c :: rest => sub.isPrefixOf (c :: rest) || containsL sub rest

/-- Python `sub in s`. -/
def pyContains (s sub : String) : Bool := containsL sub.data s.data

/-- Python `s.startswith(p)`. -/
def pyStartswith (s p : String) : Bool := p.data.isPrefixOf s.data

/-- Python `str.replace` (all non-overlapping occurrences, scanned left to
right).  The `Nat` argument is fuel for structural recursion; any fuel of at
least the list length gives the replace semantics, and the wrapper `pyReplace`
always passes enough.  (Python's corner case of an empty pattern is never
exercised by the agent; with fuel available an empty pattern just copies.) -/
def replaceFuel (old new : List Char) : Nat → List Char → List Char
  | _, [] => []
  | 0, cs => cs
  | fuel + 1, c :: rest =>
    if !old.isEmpty && old.isPrefixOf (c :: rest) then
      new ++ replaceFuel old new fuel ((c :: rest).drop old.length)
    else
      c :: replaceFuel old new fuel rest

/-- Python `s.replace(old, new)`. -/
def pyReplace (s old new : String) : String :=
  String.mk (replaceFuel old.data new.data (s.data.length + 1) s.data)

/-- Helper of `pySplitWs`: accumulate the current word (reversed) while
scanning. -/
def splitWsAux : List Char → List Char → List (List Char)
  | [], acc => if acc.isEmpty then [] else [acc.reverse]
  | c :: rest, acc =>
    if isPySpace c then
      if acc.isEmpty then splitWsAux rest []
      else acc.reverse :: splitWsAux rest []
    else splitWsAux rest (c :: acc)

/-- Python `s.split()` (split on whitespace runs, no empty words). -/
def pySplitWs (s : String) : List String := (splitWsAux s.data []).map String.mk

/-- Python `" ".join(ws)` on character lists. -/
def joinSpaceL : List (List Char) → List Char
  | [] => []
  | [w] => w
  | w :: ws => w ++ ' ' :: joinSpaceL ws

/-- Python `" ".join(s.split())` (whitespace collapsing). -/
def pyJoinSplit (s : String) : String := String.mk (joinSpaceL (splitWsAux s.data []))

/-- Python slicing `s[:n]` for `n ≥ 0`. -/
def pyTake (n : Nat) (s : String) : String := String.mk (s.data.take n)

/-- Python `len(s)`. -/
def pyLen (s : String) : Nat := s.data.length

/-- First match of the regex `(\d+)[,\s]+(\d+)` in the scanning discipline of
`re.findall` (try each position left to right; on success the two greedy digit
groups are returned).  The agent only consumes `coords[0]`, the first match. -/
def findCoordsL : List Char → Option (List Char × List Char)
  | [] => none
  | c :: rest =>
    if c.isDigit then
      let ds := (c :: rest).takeWhile Char.isDigit
      let r1 := (c :: rest).dropWhile Char.isDigit
      let sep := r1.takeWhile (fun d => d = ',' || isPySpace d)
      let r2 := r1.dropWhile (fun d => d = ',' || isPySpace d)
      let ys := r2.takeWhile Char.isDigit
      if !sep.isEmpty && !ys.isEmpty then some (ds, ys)
      else findCoordsL rest
    else findCoordsL rest

/-- First match of `re.findall(r'(\d+)[,\s]+(\d+)', s)`, as used by the agent
(`coords[0]`), giving the two digit groups as strings. -/
def pyFindCoords (s : String) : Option (String × String) :=
  (findCoordsL s.data).map (fun p => (String.mk p.1, String.mk p.2))

/-- Find the first occurrence of `pat`; return the text before and after it. -/
def splitOnceL (pat : List Char) : List Char → Option (List Char × List Char)
  | [] => if pat.isEmpty then some ([], []) else none
  | c :: rest =>
    if pat.isPrefixOf (c :: rest) then some ([], (c :: rest).drop pat.length)
    else
      match splitOnceL pat rest with
      | some (before, after) => some (c :: before, after)
      | none => none

/-- All matches of the non-greedy tag regex `<open>(.*?)</close>` with
`re.DOTALL`, in document order: at each position, an opening tag followed by
the nearest closing tag yields the inner text, and scanning resumes after the
match.  Fuel-structural; any fuel above the list length is enough. -/
def findTagsF (openT closeT : List Char) : Nat → List Char → List (List Char)
  | 0, _ => []
  | _ + 1, [] => []
  | fuel + 1, c :: rest =>
    if openT.isPrefixOf (c :: rest) then
      match splitOnceL closeT ((c :: rest).drop openT.length) with
      | some (inner, after) => inner :: findTagsF openT closeT fuel after
      | none => findTagsF openT closeT fuel rest
    else findTagsF openT closeT fuel rest

/-- Model of `re.findall(r'<xdotool>(.*?)</xdotool>', s, re.DOTALL)`. -/
def reFindallXdotool (s : String) : List String :=
  (findTagsF ("<xdotool>".data) ("</xdotool>".data) (s.data.length + 1) s.data).map
    String.mk

/-- JSON values as handled by the Python `json` module in the agent.  The
fragment reachable in the agent only ever holds objects, arrays, strings,
integers, booleans and null (no float appears in any plan or boundary
response modelled here; a fractional number makes `pyJsonLoads` fail where
Python would produce a float). -/
inductive Json where
  | null : Json
  | bool (b : Bool) : Json
  | int (n : Int) : Json
  | str (s : String) : Json
  | arr (elems : List Json) : Json
  | obj (fields : List (String × Json)) : Json

/-- Lookup in a JSON object with Python `dict` semantics: when `json.loads`
meets a duplicate key the later binding wins, so lookup returns the last
match. -/
def lookupLast (fields : List (String × Json)) (key : String) : Option Json :=
  match fields with
  | [] => none
  | kv :: rest =>
    match lookupLast rest key with
    | some v => some v
    | none => if kv.1 = key then some kv.2 else none

/-- Python truthiness of a JSON value. -/
def pyTruthy : Json → Bool
  | .null => false
  | .bool b => b
  | .int n => decide (n ≠ 0)
  | .str s => !s.data.isEmpty
  | .arr l => !l.isEmpty
  | .obj fs => !fs.isEmpty

/-- Hex digit used by the `\uXXXX` escapes of `json.dumps`. -/
def hexDigit (n : Nat) : Char :=
  if n < 10 then Char.ofNat (48 + n) else Char.ofNat (87 + n)

/-- JSON string escaping as done by `json.dumps` (`ensure_ascii=True`;
code points above 0xFFFF, which would need surrogate pairs, never occur in
the agent's data). -/
def escapeChar (c : Char) : List Char :=
  if c = '"' then ['\\', '"']
  else if c = '\\' then ['\\', '\\']
  else if c = '\n' then ['\\', 'n']
  else if c = '\t' then ['\\', 't']
  else if c = '\r' then ['\\', 'r']
  else if c = '\x08' then ['\\', 'b']
  else if c = '\x0c' then ['\\', 'f']
  else if c.toNat < 0x20 || c.toNat > 0x7e then
    '\\' :: 'u' :: hexDigit (c.toNat / 4096 % 16) :: hexDigit (c.toNat / 256 % 16) ::
      hexDigit (c.toNat / 16 % 16) :: [hexDigit (c.toNat % 16)]
  else [c]

/-- A JSON string literal as emitted by `json.dumps`. -/
def quoteString (s : String) : List Char :=
  '"' :: (s.data.map escapeChar).flatten ++ ['"']

mutual

/-- Body of `json.dumps` with the default separators `", "` and `": "`. -/
def dumpsV : Json → List Char
  | .null => "null".data
  | .bool b => (if b then "true" else "false").data
  | .int n => (toString n).data
  | .str s => quoteString s
  | .arr l => '[' :: (dumpsArr l ++ [']'])
  | .obj fs => '\x7b' :: (dumpsObj fs ++ ['\x7d'])

/-- Array bodies for `dumpsV`. -/
def dumpsArr : List Json → List Char
  | [] => []
  | [v] => dumpsV v
  | v :: vs => dumpsV v ++ ',' :: ' ' :: dumpsArr vs

/-- Object bodies for `dumpsV`. -/
def dumpsObj : List (String × Json) → List Char
  | [] => []
  | [kv] => quoteString kv.1 ++ ':' :: ' ' :: dumpsV kv.2
  | kv :: kvs =>
    quoteString kv.1 ++ ':' :: ' ' :: dumpsV kv.2 ++ ',' :: ' ' :: dumpsObj kvs

end

/-- Model of `json.dumps(j)` with Python's default options. -/
def pyJsonDumps (j : Json) : String := String.mk (dumpsV j)

/-- Skip JSON whitespace. -/
def skipWsL (cs : List Char) : List Char :=
  cs.dropWhile (fun c => c = ' ' || c = '\t' || c = '\n' || c = '\r')

/-- Is `c` a hex digit? -/
def isHexDigitC (c : Char) : Bool :=
  c.isDigit || ('a' ≤ c && c ≤ 'f') || ('A' ≤ c && c ≤ 'F')

/-- Value of a hex digit. -/
def hexVal (c : Char) : Nat :=
  if c.isDigit then c.toNat - 48
  else if 'a' ≤ c && c ≤ 'f' then c.toNat - 87
  else if 'A' ≤ c && c ≤ 'F' then c.toNat - 55
  else 0

/-- Single-character escapes accepted by `json.loads`. -/
def decodeEsc (e : Char) : Option Char :=
  if e = '"' then some '"'
  else if e = '\\' then some '\\'
  else if e = '/' then some '/'
  else if e = 'b' then some '\x08'
  else if e = 'f' then some '\x0c'
  else if e = 'n' then some '\n'
  else if e = 'r' then some '\r'
  else if e = 't' then some '\t'
  else none

/-- Parse the body of a JSON string after the opening quote; returns the
decoded characters and the input after the closing quote. -/
def parseStringBody : List Char → Option (List Char × List Char)
  | [] => none
  | '"' :: rest => some ([], rest)
  | '\\' :: 'u' :: a :: b :: c :: d :: rest =>
    if isHexDigitC a && isHexDigitC b && isHexDigitC c && isHexDigitC d then
      (parseStringBody rest).map fun p =>
        (Char.ofNat (hexVal a * 4096 + hexVal b * 256 + hexVal c * 16 + hexVal d) :: p.1,
          p.2)
    else none
  | '\\' :: e :: rest =>
    match decodeEsc e with
    | some c => (parseStringBody rest).map fun p => (c :: p.1, p.2)
    | none => none
  | c :: rest => (parseStringBody rest).map fun p => (c :: p.1, p.2)

/-- Parse a JSON number restricted to integers (see `Json`). -/
def parseIntL (cs : List Char) : Option (Int × List Char) :=
  let neg := match cs with
    | '-' :: _ => true
    | _ => false
  let cs1 := if neg then cs.drop 1 else cs
  let ds := cs1.takeWhile Char.isDigit
  let rest := cs1.dropWhile Char.isDigit
  if ds.isEmpty then none
  else
    match rest with
    | '.' :: _ => none
    | 'e' :: _ => none
    | 'E' :: _ => none
    | _ =>
      let n : Nat := ds.foldl (fun acc c => acc * 10 + (c.toNat - 48)) 0
      some (if neg then -(n : Int) else (n : Int), rest)

mutual

/-- One JSON value (leading whitespace allowed); fuel-structural, the wrapper
`pyJsonLoads` always passes enough fuel. -/
def parseVal : Nat → List Char → Option (Json × List Char)
  | 0, _ => none
  | fuel + 1, cs =>
    match skipWsL cs with
    | '\x7b' :: rest =>
      match skipWsL rest with
      | '\x7d' :: rest2 => some (.obj [], rest2)
      | cs2 => (parseMembers fuel cs2).map fun p => (.obj p.1, p.2)
    | '[' :: rest =>
      match skipWsL rest with
      | ']' :: rest2 => some (.arr [], rest2)
      | cs2 => (parseElems fuel cs2).map fun p => (.arr p.1, p.2)
    | '"' :: rest => (parseStringBody rest).map fun p => (.str (String.mk p.1), p.2)
    | 't' :: 'r' :: 'u' :: 'e' :: rest => some (.bool true, rest)
    | 'f' :: 'a' :: 'l' :: 's' :: 'e' :: rest => some (.bool false, rest)
    | 'n' :: 'u' :: 'l' :: 'l' :: rest => some (.null, rest)
    | cs1 => (parseIntL cs1).map fun p => (.int p.1, p.2)

/-- Object members starting at a key (whitespace already skipped). -/
def parseMembers : Nat → List Char → Option (List (String × Json) × List Char)
  | 0, _ => none
  | fuel + 1, cs =>
    match cs with
    | '"' :: rest =>
      match parseStringBody rest with
      | none => none
      | some (k, r1) =>
        match skipWsL r1 with
        | ':' :: r2 =>
          match parseVal fuel r2 with
          | none => none
          | some (v, r3) =>
            match skipWsL r3 with
            | ',' :: r4 =>
              (parseMembers fuel (skipWsL r4)).map fun p => ((String.mk k, v) :: p.1, p.2)
            | '\x7d' :: r4 => some ([(String.mk k, v)], r4)
            | _ => none
        | _ => none
    | _ => none

/-- Array elements starting at a value. -/
def parseElems : Nat → List Char → Option (List Json × List Char)
  | 0, _ => none
  | fuel + 1, cs =>
    match parseVal fuel cs with
    | none => none
    | some (v, r1) =>
      match skipWsL r1 with
      | ',' :: r2 => (parseElems fuel r2).map fun p => (v :: p.1, p.2)
      | ']' :: r2 => some ([v], r2)
      | _ => none

end

/-- Model of `json.loads(s)`: parse one value, tolerate surrounding whitespace, fail
(`None` here, an exception in Python) on anything else. -/
def pyJsonLoads (s : String) : Option Json :=
  match parseVal (2 * s.data.length + 4) s.data with
  | some (j, rest) => if (skipWsL rest).isEmpty then some j else none
  | none => none

/-- The apostrophe character, via its code point (several source strings
contain one). -/
def apos : String := String.mk [Char.ofNat 39]

/-- The fixed system prompt of `_generate_ai_response` (lines 92-220). -/
def system_prompt : String :=
    "You are an AI assistant that controls a computer desktop environment through xdotool commands.\n" ++
    "\n" ++
    "Your job is to:\n" ++
    "1. Understand what the user wants to do on the computer\n" ++
    "2. Generate the appropriate xdotool commands to accomplish the task\n" ++
    "3. Return response in consistent JSON format\n" ++
    "\n" ++
    "Available applications and common commands:\n" ++
    "- firefox-esr (web browser)\n" ++
    "- xcalc (calculator) \n" ++
    "- xterm (terminal)\n" ++
    "- gedit (text editor)\n" ++
    "- nautilus (file manager)\n" ++
    "- Applications should be launched directly with \"DISPLAY=:1 appname &\"\n" ++
    "\n" ++
    "Common xdotool operations:\n" ++
    "- Open app: \"DISPLAY=:1 appname &\" (direct launch, preferred method)\n" ++
    "- Type text: \"xdotool type \"text here\"\"\n" ++
    "- Click coordinates: \"xdotool mousemove X Y\", \"xdotool click 1\"\n" ++
    "- Key combinations: \"xdotool key ctrl+c\", \"xdotool key alt+Tab\", etc.\n" ++
    "- Window management: \"xdotool key alt+F4\" (close), \"xdotool key super+Up\" (maximize)\n" ++
    "- Mouse actions: \"xdotool click 1\" (left), \"xdotool click 3\" (right), \"xdotool click 4\" (scroll up), \"xdotool click 5\" (scroll down)\n" ++
    "- Special keys: Return, Escape, Tab, space, BackSpace, Delete, Home, End, Up, Down, Left, Right\n" ++
    "\n" ++
    "MANDATORY JSON RESPONSE FORMAT:\n" ++
    "\x7b\n" ++
    "  \"action\": \"Brief description of what you" ++ apos ++ "re doing in English\",\n" ++
    "  \"commands\": [\n" ++
    "    \"xdotool command 1\",\n" ++
    "    \"sleep 2\", \n" ++
    "    \"xdotool command 2\"\n" ++
    "  ]\n" ++
    "\x7d\n" ++
    "\n" ++
    "Examples:\n" ++
    "User: \"open calculator\" → Open calculator\n" ++
    "\x7b\n" ++
    "  \"action\": \"Opening calculator application\",\n" ++
    "  \"commands\": [\n" ++
    "    \"DISPLAY=:1 xcalc &\"\n" ++
    "  ]\n" ++
    "\x7d\n" ++
    "\n" ++
    "User: \"open firefox\" → Open Firefox\n" ++
    "\x7b\n" ++
    "  \"action\": \"Opening Firefox browser\",\n" ++
    "  \"commands\": [\n" ++
    "    \"DISPLAY=:1 firefox-esr &\"\n" ++
    "  ]\n" ++
    "\x7d\n" ++
    "\n" ++
    "User: \"open gedit\" → Open text editor\n" ++
    "\x7b\n" ++
    "  \"action\": \"Opening Gedit text editor\",\n" ++
    "  \"commands\": [\n" ++
    "    \"DISPLAY=:1 gedit &\"\n" ++
    "  ]\n" ++
    "\x7d\n" ++
    "\n" ++
    "User: \"type hello world\" → Type text\n" ++
    "\x7b\n" ++
    "  \"action\": \"Typing text " ++ apos ++ "hello world" ++ apos ++ "\",\n" ++
    "  \"commands\": [\n" ++
    "    \"xdotool type \"hello world\"\"\n" ++
    "  ]\n" ++
    "\x7d\n" ++
    "\n" ++
    "User: \"click at coordinates 300 200\" → Click at coordinates\n" ++
    "\x7b\n" ++
    "  \"action\": \"Clicking at coordinates (300, 200)\",\n" ++
    "  \"commands\": [\n" ++
    "    \"xdotool mousemove 300 200\",\n" ++
    "    \"sleep 1\",\n" ++
    "    \"xdotool click 1\"\n" ++
    "  ]\n" ++
    "\x7d\n" ++
    "\n" ++
    "User: \"press enter\" → Press key\n" ++
    "\x7b\n" ++
    "  \"action\": \"Pressing Enter key\",\n" ++
    "  \"commands\": [\n" ++
    "    \"xdotool key Return\"\n" ++
    "  ]\n" ++
    "\x7d\n" ++
    "\n" ++
    "User: \"close window\" → Close window\n" ++
    "\x7b\n" ++
    "  \"action\": \"Closing active window\",\n" ++
    "  \"commands\": [\n" ++
    "    \"xdotool key alt+F4\"\n" ++
    "  ]\n" ++
    "\x7d\n" ++
    "\n" ++
    "User: \"scroll down\" → Scroll down\n" ++
    "\x7b\n" ++
    "  \"action\": \"Scrolling down\",\n" ++
    "  \"commands\": [\n" ++
    "    \"xdotool click 5\",\n" ++
    "    \"xdotool click 5\",\n" ++
    "    \"xdotool click 5\"\n" ++
    "  ]\n" ++
    "\x7d\n" ++
    "\n" ++
    "User: \"open firefox and search weather jakarta\" → Open Firefox and search\n" ++
    "\x7b\n" ++
    "  \"action\": \"Opening Firefox and searching for weather Jakarta\",\n" ++
    "  \"commands\": [\n" ++
    "    \"DISPLAY=:1 firefox-esr &\",\n" ++
    "    \"sleep 5\",\n" ++
    "    \"xdotool key ctrl+l\",\n" ++
    "    \"sleep 1\",\n" ++
    "    \"xdotool type \"weather jakarta\"\",\n" ++
    "    \"xdotool key Return\"\n" ++
    "  ]\n" ++
    "\x7d\n" ++
    "\n" ++
    "CRITICAL RULES:\n" ++
    "1. ALWAYS respond with valid JSON format only\n" ++
    "2. No additional text outside the JSON\n" ++
    "3. Use double quotes for strings in JSON\n" ++
    "4. Escape quotes inside command strings properly\n" ++
    "5. Include \"sleep\" commands between UI operations that need time\n" ++
    "6. Keep action description in English, commands in English\n" ++
    "7. Be creative and intelligent about interpreting user requests\n" ++
    "8. If coordinates aren" ++ apos ++ "t specified for clicks, ask for them or suggest reasonable defaults\n" ++
    "9. Handle complex tasks by breaking them into multiple xdotool commands\n" ++
    "10. For opening apps, use \"DISPLAY=:1 appname &\" NOT alt+F2 sequences\n" ++
    "11. For Firefox searches, use Ctrl+L to focus address bar then type search term\n" ++
    "12. Always wait 3-5 seconds after opening apps before interacting with them"

/-- The configuration fields of `app.core.config.Settings` that
`_generate_ai_response` reads. -/
structure Settings where
  API_PROVIDER : String
  COMET_API_KEY : String
  COMET_API_BASE_URL : String
  COMET_MODEL : String
  COMET_MAX_TOKENS : Nat

/-- One entry of `self.conversation_history`: the fields read back when the
message list is built (assistant entries carry extra bookkeeping keys that
the agent never reads again). -/
structure HistEntry where
  role : String
  content : String
  timestamp : String
deriving DecidableEq

/-- One element of the `messages` list sent to the generative backend. -/
structure ChatMsg where
  role : String
  content : String
deriving DecidableEq

/-- The mutable attributes of an `AIGenerativeAgent` instance (lines 25-28). -/
structure AgentState where
  session_id : String
  vnc_api_base : String
  conversation_history : List HistEntry

/-- Line 228: `self.conversation_history[-5:] if
len(self.conversation_history) > 5 else self.conversation_history`. -/
def recent_history (h : List HistEntry) : List HistEntry :=
  if h.length > 5 then h.drop (h.length - 5) else h

/-- The `messages` list built by `_generate_ai_response` (lines 222-239):
the system prompt, the recent-history window, then the current user
message.  Note that the history this receives already ends with the current
user turn, appended by `process_message` (line 36) before the call. -/
def build_messages (history : List HistEntry) (user_message : String) : List ChatMsg :=
  ⟨"system", system_prompt⟩ ::
    ((recent_history history).map fun m => ⟨m.role, m.content⟩) ++
    [⟨"user", user_message⟩]

/-- The `messages` field of the Comet request payload (lines 253-256): the
system prompt again, followed by `messages[1:]`. -/
def payload_messages (messages : List ChatMsg) : List ChatMsg :=
  ⟨"system", system_prompt⟩ :: messages.drop 1

/-- Line 314. -/
def search_indicators : List String :=
  ["search", "cari", "cek", "find", "lookup", "check", "weather", "cuaca", "google",
    "browse", "open", "buka", "untuk", "for"]

/-- Line 321. -/
def firefox_stop_words : List String :=
  ["buka", "open", "firefox", "dan", "and", "search", "cari", "find", "lookup",
    "check", "cek", "kondisi", "untuk", "for", "di", "in"]

/-- Line 350. -/
def open_keywords : List String := ["buka", "open", "jalankan", "launch", "start", "run"]

/-- Lines 354-360: `{pattern: (executable, display_name)}` in insertion
order. -/
def app_patterns : List (String × String × String) :=
  [("kalkulator|calculator|calc", "xcalc", "calculator"),
    ("gedit|editor|text|notepad", "gedit", "text editor"),
    ("terminal|xterm|console|konsole", "xterm", "terminal"),
    ("nautilus|file|folder|manager", "nautilus", "file manager"),
    ("browser|firefox", "firefox-esr", "Firefox browser")]

/-- Line 384. -/
def type_keywords : List String := ["ketik", "type", "tulis", "write", "input"]

/-- Line 401. -/
def click_keywords : List String := ["klik", "click", "tekan", "press"]

/-- Lines 417-428, in insertion order. -/
def key_patterns : List (String × String) :=
  [("enter|return", "Return"), ("escape|esc", "Escape"), ("tab", "Tab"),
    ("space|spasi", "space"), ("backspace", "BackSpace"), ("delete|del", "Delete"),
    ("up|atas", "Up"), ("down|bawah", "Down"), ("left|kiri", "Left"),
    ("right|kanan", "Right")]

/-- Python `pattern.split("|")` on the fixed keyword tables. -/
def splitBarAux : List Char → List Char → List (List Char)
  | [], acc => [acc.reverse]
  | c :: rest, acc =>
    if c = '|' then acc.reverse :: splitBarAux rest []
    else splitBarAux rest (c :: acc)

/-- Python `s.split("|")`. -/
def pySplitBar (s : String) : List String := (splitBarAux s.data []).map String.mk

/-- The literal echo command of the default branch (lines 487-492). -/
def echoHelpCommand : String :=
  "echo \"Please provide commands like: " ++ apos ++ "open firefox" ++ apos ++ ", " ++ apos ++
    "type hello world" ++ apos ++ ", " ++ apos ++ "click 300 200" ++ apos ++ ", " ++ apos ++
    "press enter" ++ apos ++ "\""

/-- Firefox branch of the fallback planner (lines 311-347); always returns
when the input mentions firefox. -/
def firefoxBranch (user_input : String) : Option String :=
  if pyContains user_input ("firefox") then
    let is_search := search_indicators.any fun w => pyContains user_input w
    if is_search then
      let search_term := firefox_stop_words.foldl (fun t w => pyReplace t w (" ")) user_input
      let search_term := pyStrip (pyJoinSplit search_term)
      let search_term := if search_term = "" then "informasi" else search_term
      some (pyJsonDumps (.obj
        [("action", .str ("Opening Firefox and searching for " ++ search_term)),
          ("commands", .arr
            [.str "DISPLAY=:1 firefox-esr &", .str "sleep 5",
              .str "xdotool key ctrl+l", .str "sleep 1",
              .str ("xdotool type \"" ++ search_term ++ "\""),
              .str "xdotool key Return"])]))
    else
      some (pyJsonDumps (.obj [("action", .str "Opening Firefox browser"),
        ("commands", .arr [.str "DISPLAY=:1 firefox-esr &"])]))
  else none

/-- App-open branch (lines 350-381); `none` when it falls through. -/
def openBranch (user_input : String) : Option String :=
  if open_keywords.any (fun k => pyContains user_input k) then
    match app_patterns.find? (fun p => (pySplitBar p.1).any fun w => pyContains user_input w) with
    | some p =>
      some (pyJsonDumps (.obj [("action", .str ("Opening " ++ p.2.2)),
        ("commands", .arr [.str ("DISPLAY=:1 " ++ p.2.1 ++ " &")])]))
    | none =>
      match (pySplitWs user_input).find? (fun w => !open_keywords.contains w && pyLen w > 2) with
      | some w =>
        some (pyJsonDumps (.obj [("action", .str ("Opening application " ++ w)),
          ("commands", .arr [.str ("DISPLAY=:1 " ++ w ++ " &")])]))
      | none => none
  else none

/-- Typing branch (lines 384-398). -/
def typeBranch (user_input : String) : Option String :=
  if type_keywords.any (fun k => pyContains user_input k) then
    let text_to_type := type_keywords.foldl (fun t k => pyReplace t k (" ")) user_input
    let text_to_type := pyStrip (pyJoinSplit text_to_type)
    if text_to_type ≠ "" then
      some (pyJsonDumps (.obj [("action", .str ("Typing text: " ++ text_to_type)),
        ("commands", .arr [.str ("xdotool type \"" ++ text_to_type ++ "\"")])]))
    else none
  else none

/-- Click branch (lines 401-414). -/
def clickBranch (user_input : String) : Option String :=
  if click_keywords.any (fun k => pyContains user_input k) then
    match pyFindCoords user_input with
    | some (x, y) =>
      some (pyJsonDumps (.obj
        [("action", .str ("Clicking at coordinates (" ++ x ++ ", " ++ y ++ ")")),
          ("commands", .arr [.str ("xdotool mousemove " ++ x ++ " " ++ y),
            .str "sleep 1", .str "xdotool click 1"])]))
    | none => none
  else none

/-- Key-press branch (lines 430-437). -/
def keyBranch (user_input : String) : Option String :=
  (key_patterns.find? fun p => (pySplitBar p.1).any fun w => pyContains user_input w).map
    fun p => pyJsonDumps (.obj [("action", .str ("Pressing " ++ p.2 ++ " key")),
      ("commands", .arr [.str ("xdotool key " ++ p.2)])])

/-- Close-window branch (lines 440-446). -/
def closeBranch (user_input : String) : Option String :=
  if ["tutup", "close", "keluar", "exit"].any (fun w => pyContains user_input w) then
    some (pyJsonDumps (.obj [("action", .str "Closing active window"),
      ("commands", .arr [.str "xdotool key alt+F4"])]))
  else none

/-- Maximize branch (lines 448-454). -/
def maximizeBranch (user_input : String) : Option String :=
  if ["maksimal", "maximize", "besar", "max"].any (fun w => pyContains user_input w) then
    some (pyJsonDumps (.obj [("action", .str "Maximizing window"),
      ("commands", .arr [.str "xdotool key super+Up"])]))
  else none

/-- Scroll branch (lines 457-475); scroll with no direction falls through. -/
def scrollBranch (user_input : String) : Option String :=
  if ["scroll", "gulir"].any (fun w => pyContains user_input w) then
    if ["bawah", "down"].any (fun w => pyContains user_input w) then
      some (pyJsonDumps (.obj [("action", .str "Scrolling down"),
        ("commands", .arr [.str "xdotool click 5", .str "xdotool click 5",
          .str "xdotool click 5"])]))
    else if ["atas", "up"].any (fun w => pyContains user_input w) then
      some (pyJsonDumps (.obj [("action", .str "Scrolling up"),
        ("commands", .arr [.str "xdotool click 4", .str "xdotool click 4",
          .str "xdotool click 4"])]))
    else none
  else none

/-- Raw xdotool passthrough (lines 478-484); note it echoes the original
(unlowered) message, stripped. -/
def xdotoolBranch (user_input user_message : String) : Option String :=
  if pyContains user_input ("xdotool") then
    some (pyJsonDumps (.obj [("action", .str "Executing direct xdotool command"),
      ("commands", .arr [.str (pyStrip user_message)])]))
  else none

/-- Embedding of `_generate_simple_ai_response` (lines 306-492): the deterministic
fallback planner.  `st` is the `self` argument; the body reads no attribute
of it.  Branches are tried in source order; each returns immediately on
match; the default branch always answers. -/
def generate_simple_ai_response (_self : AgentState) (user_message : String) : String :=
  let user_input := pyStrip (pyLower user_message)
  (firefoxBranch user_input <|> openBranch user_input <|> typeBranch user_input <|>
    clickBranch user_input <|> keyBranch user_input <|> closeBranch user_input <|>
    maximizeBranch user_input <|> scrollBranch user_input <|>
    xdotoolBranch user_input user_message).getD
    (pyJsonDumps (.obj [("action", .str "Need more specific instructions"),
      ("commands", .arr [.str echoHelpCommand])]))

/-- The markdown-fence cleanup shared by `_extract_xdotool_commands`
(lines 500-505) and `_generate_execution_report` (lines 571-576). -/
def cleanFences (ai_response : String) : String :=
  let clean_response := pyStrip ai_response
  if pyStartswith clean_response ("```json") then
    pyStrip (pyReplace (pyReplace clean_response ("```json") ("")) ("```") (""))
  else if pyStartswith clean_response ("```") then
    pyStrip (pyReplace clean_response ("```") (""))
  else clean_response

/-- Embedding of `_extract_xdotool_commands` (lines 494-525).  Returns the Python value
bound to `commands`: the JSON path returns `data["commands"]` verbatim
(whatever JSON value that is — no element validation); the legacy path
returns the list of stripped non-empty `<xdotool>` tag bodies of the
original response; otherwise the empty list. -/
def extract_xdotool_commands (ai_response : String) : Json :=
  let legacy : Json := .arr ((reFindallXdotool ai_response).filterMap fun m =>
    let command := pyStrip m
    if command = "" then none else some (.str command))
  match pyJsonLoads (cleanFences ai_response) with
  | some (.obj fields) =>
    match lookupLast fields ("commands") with
    | some v => v
    | none => legacy
  | _ => legacy

/-- Decimal print of a natural number (status codes, report counts),
fuel-structural so that it evaluates definitionally. -/
def natToChars : Nat → Nat → List Char
  | 0, _ => []
  | fuel + 1, n =>
    if n < 10 then [Char.ofNat (48 + n)]
    else natToChars fuel (n / 10) ++ [Char.ofNat (48 + n % 10)]

/-- Decimal print of a natural number. -/
def natToStr (n : Nat) : String := String.mk (natToChars (n + 1) n)

/-- Python `str()` of an integer. -/
def intToStr (n : Int) : String :=
  if n < 0 then "-" ++ natToStr n.natAbs else natToStr n.natAbs

mutual

/-- Python `repr` of a JSON-shaped value — the fragment needed when a
non-string value is interpolated into an f-string.  (Python would escape
quotes and non-printables inside string reprs; no claim reaches that.) -/
def pyReprV : Json → String
  | .null => "None"
  | .bool true => "True"
  | .bool false => "False"
  | .int n => intToStr n
  | .str s => apos ++ s ++ apos
  | .arr l => "[" ++ pyReprArr l ++ "]"
  | .obj fs => "\x7b" ++ pyReprObj fs ++ "\x7d"

/-- List bodies for `pyReprV`. -/
def pyReprArr : List Json → String
  | [] => ""
  | [v] => pyReprV v
  | v :: vs => pyReprV v ++ ", " ++ pyReprArr vs

/-- Dict bodies for `pyReprV`. -/
def pyReprObj : List (String × Json) → String
  | [] => ""
  | [kv] => apos ++ kv.1 ++ apos ++ ": " ++ pyReprV kv.2
  | kv :: kvs => apos ++ kv.1 ++ apos ++ ": " ++ pyReprV kv.2 ++ ", " ++ pyReprObj kvs

end

/-- Python `str()` / f-string interpolation of a JSON-shaped value. -/
def pyFStr : Json → String
  | .str s => s
  | v => pyReprV v

/-- Behaviour of one `requests.post` call to the execution boundary: either
the call raises (connection error, timeout), or it returns a response with a
status code, a body text, and the outcome of `response.json()` (which itself
may raise on a malformed body). -/
inductive BResp where
  | raises (msg : String)
  | responds (status : Nat) (text : String) (body : Except String Json)

/-- The per-command result dict built by `_execute_xdotool_command`; `none`
models a dict key that is absent in that branch. -/
structure Outcome where
  command : String
  success : Bool
  return_code : Option Json
  output : Option Json
  error : Option Json

/-- Python `result.get(key, default)`; `.error` models the `AttributeError`
raised when `result` is not a dict. -/
def pyDictGet (result : Json) (key : String) (dflt : Json) : Except String Json :=
  match result with
  | .obj fields => .ok ((lookupLast fields key).getD dflt)
  | _ => .error "AttributeError: get"

/-- The body of the `try` in `_execute_xdotool_command` (lines 529-553); an
`Except.error` is a raised exception reaching the `except` clause. -/
def execute_try (b : BResp) (command : String) : Except String Outcome :=
  match b with
  | .raises msg => .error msg
  | .responds status text body =>
    if status = 200 then
      match body with
      | .error msg => .error msg
      | .ok result => do
        let rc ← pyDictGet result ("return_code") (.int 0)
        let out ← pyDictGet result ("output") (.str "")
        let err ← pyDictGet result ("error") (.str "")
        .ok ⟨command, true, some rc, some out, some err⟩
    else
      .ok ⟨command, false, none, none,
        some (.str ("HTTP " ++ natToStr status ++ ": " ++ text))⟩

/-- Embedding of `_execute_xdotool_command` (lines 527-561): every exception is caught by
the `except` clause and converted to a failure outcome carrying `str(e)`. -/
def execute_xdotool_command (b : BResp) (command : String) : Outcome :=
  match execute_try b command with
  | .ok o => o
  | .error msg => ⟨command, false, none, none, some (.str msg)⟩

/-- The command loop of `process_message` (lines 49-54), additionally
returning the ordered trace of boundary calls issued.  `behavior i cmd` is
what the boundary does on the i-th call (counting from `i0`). -/
def dispatch_commands (behavior : Nat → String → BResp) :
    Nat → List String → List Outcome × List String
  | _, [] => ([], [])
  | i, cmd :: rest =>
    let result := execute_xdotool_command (behavior i cmd) cmd
    let step := dispatch_commands behavior (i + 1) rest
    (result :: step.1, cmd :: step.2)

/-- One line of the execution report (lines 589-597).  `.error` models the
exception Python would raise when slicing / stripping a non-string
`output` / `error` value (no outcome the dispatcher builds triggers it). -/
def reportLine (i : Nat) (result : Outcome) : Except String String :=
  let cmd_short :=
    if pyLen result.command > 50 then pyTake 50 result.command ++ "..."
    else result.command
  if result.success then
    let base := "✅ Command " ++ natToStr i ++ ": " ++ cmd_short ++ "\n"
    match result.output with
    | some v =>
      if pyTruthy v then
        match v with
        | .str s => .ok (base ++ "   Output: " ++ pyTake 100 (pyStrip s) ++ "\n")
        | _ => .error "AttributeError: strip"
      else .ok base
    | none => .ok base
  else
    let base := "❌ Command " ++ natToStr i ++ ": " ++ cmd_short ++ "\n"
    match result.error.getD (.str "Unknown error") with
    | .str s => .ok (base ++ "   Error: " ++ pyTake 100 s ++ "\n")
    | _ => .error "TypeError: slice"

/-- The report's per-outcome loop, numbering from `i` (`enumerate(results,
1)` starts at 1). -/
def reportLinesFrom (i : Nat) : List Outcome → Except String String
  | [] => .ok ""
  | r :: rest => do
    let line ← reportLine i r
    let others ← reportLinesFrom (i + 1) rest
    .ok (line ++ others)

/-- Embedding of `_generate_execution_report` (lines 563-599). -/
def generate_execution_report (commands : List String) (results : List Outcome)
    (ai_response : String) : Except String String :=
  if commands.isEmpty then .ok "[REPORT]: No commands to execute."
  else
    let action_description :=
      match pyJsonLoads (cleanFences ai_response) with
      | some (.obj fields) =>
        match lookupLast fields ("action") with
        | some v => pyFStr v
        | none => "Command execution"
      | _ => "Command execution"
    let successful := (results.filter fun r => r.success).length
    let failed := results.length - successful
    do
      let body ← reportLinesFrom 1 results
      .ok ("[REPORT]: " ++ action_description ++ " - " ++ natToStr successful ++
        " successful, " ++ natToStr failed ++ " failed\n" ++ body)

/-- What the single HTTPS exchange with the generative backend does: either
some step of connect / request / read raises, or a raw body (with an HTTP
status, which the code only logs) comes back. -/
inductive BackendBehavior where
  | raises (msg : String)
  | responds (status : Nat) (raw : String)

/-- Line 243: `settings.API_PROVIDER.lower() == "comet" and
getattr(settings, "COMET_API_KEY", "")`. -/
def cometEnabled (st : Settings) : Bool :=
  pyLower st.API_PROVIDER == "comet" && st.COMET_API_KEY != ""

/-- Shapes 4 of the response probe (lines 283-288): the `choices` form. -/
def probeChoices (fields : List (String × Json)) : Option Json :=
  match lookupLast fields ("choices") with
  | some (.arr (choice :: _)) =>
    match choice with
    | .obj cf =>
      let msg := match lookupLast cf ("message") with
        | some m => if pyTruthy m then some m else lookupLast cf ("delta")
        | none => lookupLast cf ("delta")
      match msg with
      | some (.obj mf) => lookupLast mf ("content")
      | _ => none
    | _ => none
  | _ => none

/-- Shape 3 of the response probe (lines 279-282): the `messages` form,
falling through to the `choices` form when `messages` is absent, empty or
not a list. -/
def probeMessages (fields : List (String × Json)) : Option Json :=
  match lookupLast fields ("messages") with
  | some (.arr (m0 :: rest)) =>
    match (m0 :: rest).getLast? with
    | some (.obj lf) =>
      match lookupLast lf ("role") with
      | some (.str r) => if r = "assistant" then lookupLast lf ("content") else none
      | _ => none
    | _ => none
  | _ => probeChoices fields

/-- The response-shape probe of `_generate_ai_response` (lines 270-288):
contents of the `content` / `messages` / `choices` shapes, tried in that
fixed priority order; `none` models Python `content = None`. -/
def probeContent : Json → Option Json
  | .obj fields =>
    (match lookupLast fields ("content") with
     | some (.arr (first_content :: _)) =>
       (match first_content with
        | .obj fcf =>
          (match lookupLast fcf ("type") with
           | some (.str t) => if t = "text" then lookupLast fcf ("text") else none
           | _ => none)
        | _ => none)
     | some (.str s) => some (.str s)
     | _ => probeMessages fields)
  | _ => none

/-- Lines 267-298: parse the raw body, probe for assistant text, and decide
what the `try` block returns: `some s` models `return s`, `none` falling out
of the block.  A parse failure lands in the inner `except`, which returns
the raw body when it is non-blank. -/
def cometHandleRaw (raw : String) : Option String :=
  match pyJsonLoads raw with
  | some data =>
    (match probeContent data with
     | some (.str s) =>
       if s ≠ "" && pyStrip s ≠ "" then some s
       else if pyStrip raw ≠ "" then some raw else none
     | _ => if pyStrip raw ≠ "" then some raw else none)
  | none => if pyStrip raw ≠ "" then some raw else none

/-- The whole `try` of `_generate_ai_response` (lines 242-298) as a value:
`.error` models an exception raised inside the block and reaching the outer
`except` (network failure, timeout), `.ok (some s)` a `return s`, `.ok none`
falling out of the block (provider disabled / missing key / blank body). -/
def cometAttempt (st : Settings) (behavior : BackendBehavior) :
    Except String (Option String) :=
  if cometEnabled st then
    match behavior with
    | .raises msg => .error msg
    | .responds _status raw => .ok (cometHandleRaw raw)
  else .ok none

/-- Embedding of `_generate_ai_response` (lines 88-304): attempt the Comet backend; any
exception is caught (and logged); when nothing was returned, control reaches
line 304 and the deterministic fallback planner answers. -/
def generate_ai_response (st : Settings) (behavior : BackendBehavior)
    (ag : AgentState) (user_message : String) : String :=
  match cometAttempt st behavior with
  | .ok (some s) => s
  | .ok none => generate_simple_ai_response ag user_message
  | .error _ => generate_simple_ai_response ag user_message

/-- The history after `process_message` appended the user turn (lines
35-40). -/
def historyAfterUserAppend (ag : AgentState) (user_message timestamp : String) :
    List HistEntry :=
  ag.conversation_history ++ [⟨"user", user_message, timestamp⟩]

/-- The message list that the `_generate_ai_response` call issued by
`process_message` builds: by line 36 the history already ends with the new
user turn. -/
def process_build_messages (ag : AgentState) (user_message timestamp : String) :
    List ChatMsg :=
  build_messages (historyAfterUserAppend ag user_message timestamp) user_message

/-- Python iteration (`for cmd in xdotool_commands`) over the value the
extractor returned: a string iterates character by character, a list yields
its elements, a dict its keys; other values raise `TypeError` (`none`). -/
def pyIter : Json → Option (List Json)
  | .str s => some (s.data.map fun c => .str (String.mk [c]))
  | .arr l => some l
  | .obj fs => some (fs.map fun kv => .str kv.1)
  | _ => none

/-- The command text one iterated element contributes to the
`requests.post` body `{"command": cmd}`: string elements pass through (a
non-string element would be JSON-encoded by `requests`; only strings are
exercised by the claims). -/
def cmdText : Json → String
  | .str s => s
  | v => pyJsonDumps v

/-- Lines 49-54 of `process_message` under Python's dynamic semantics, for
an arbitrary `xdotool_commands` value: skipped when falsy, iterated
otherwise; `none` models the `TypeError` of iterating a non-iterable. -/
def process_commands_dyn (behavior : Nat → String → BResp) (cmds : Json) :
    Option (List Outcome × List String) :=
  if pyTruthy cmds then
    (pyIter cmds).map fun elems => dispatch_commands behavior 0 (elems.map cmdText)
  else some ([], [])

/-! ### Concrete instances used by the claims -/

/-- A fresh agent instance (attribute values from lines 25-28). -/
def ag0 : AgentState := ⟨"s1", "http://vnc-agent:8090", []⟩

/-- Settings with the generative backend disabled (provider not comet). -/
def settingsDisabled : Settings :=
  ⟨"anthropic", "", "https://api.cometapi.com/v1", "cometapi-3-7-sonnet", 1024⟩

/-- Settings with the generative backend enabled. -/
def settingsEnabled : Settings :=
  ⟨"comet", "k", "https://api.cometapi.com/v1", "cometapi-3-7-sonnet", 1024⟩

/-- A well-formed boundary result body. -/
def okBody : Json := .obj [("return_code", .int 0), ("output", .str "done"), ("error", .str "")]

/-- A boundary behaviour whose first call raises a transport exception and
whose later calls succeed. -/
def behav0 : Nat → String → BResp := fun i _ =>
  if i = 0 then .raises "ConnectionError: boom" else .responds 200 ("") (.ok okBody)

/-- The serialized plan `{"action": "x", "commands": ["a", "b"]}`. -/
def planXJson : String :=
  pyJsonDumps (.obj [("action", .str "x"), ("commands", .arr [.str "a", .str "b"])])

/-- A valid plan JSON whose single command contains the fence marker. -/
def tbad : String := "\x7b\"action\":\"x\",\"commands\":[\"a```b\"]\x7d"

/-- The command list of the fallback planner's Firefox-search plan for
`open firefox and search weather jakarta`. -/
def firefoxSearchCommands : List String :=
  ["DISPLAY=:1 firefox-esr &", "sleep 5", "xdotool key ctrl+l", "sleep 1",
    "xdotool type \"weather jakarta\"", "xdotool key Return"]

/-- A plan JSON whose `commands` key is bound to a single string instead of
a list. -/
def tstr : String := "\x7b\"action\":\"x\",\"commands\":\"ab\"\x7d"

/-! ### Lemmas about the string model -/

/-- The backtick character. -/
abbrev btick : Char := Char.ofNat 96

/-- The fence marker as a character list. -/
abbrev bt3 : List Char := "```".data

theorem replaceFuel_nil (old new : List Char) (fuel : Nat) :
    replaceFuel old new fuel [] = [] := by
  cases fuel <;> rfl

theorem replaceFuel_skip_step (old new : List Char) (fuel : Nat) {c : Char}
    {cs : List Char} (h : old.isPrefixOf (c :: cs) = false) :
    replaceFuel old new (fuel + 1) (c :: cs) = c :: replaceFuel old new fuel cs := by
  simp [replaceFuel, h]

theorem replaceFuel_match_step (old new tail : List Char) (fuel : Nat)
    (ho : old ≠ []) :
    replaceFuel old new (fuel + 1) (old ++ tail) = new ++ replaceFuel old new fuel tail := by
  cases old with
  | nil => exact absurd rfl ho
  | cons o os =>
    have hpre : (o :: os).isPrefixOf (o :: os ++ tail) = true := by
      simp [List.isPrefixOf_iff_prefix]
    show replaceFuel (o :: os) new (fuel + 1) (o :: (os ++ tail)) = _
    simp only [replaceFuel, List.isEmpty_cons, Bool.not_false, Bool.true_and,
      List.cons_append, hpre, if_pos]
    simp [List.length_cons, List.drop_succ_cons, List.drop_left]

theorem containsL_cons_elim {sub : List Char} {c : Char} {cs : List Char}
    (h : containsL sub (c :: cs) = false) :
    sub.isPrefixOf (c :: cs) = false ∧ containsL sub cs = false := by
  have h' := h
  unfold containsL at h'
  exact ⟨by simpa using (Bool.or_eq_false_iff.mp h').1,
    (Bool.or_eq_false_iff.mp h').2⟩

theorem not_prefix_of_take3 {old : List Char} (h3 : old.take 3 = bt3)
    {c : Char} {tl sfx : List Char} (htl : containsL bt3 (c :: tl) = false)
    (hsfx : sfx.head? ≠ some btick) :
    old.isPrefixOf (c :: (tl ++ sfx)) = false := by
  have hb : bt3 = btick :: btick :: btick :: [] := by decide
  match old, h3 with
  | [], h3 => simp [hb] at h3
  | [b1], h3 => simp [hb, List.take] at h3
  | [b1, b2], h3 => simp [hb, List.take] at h3
  | b1 :: b2 :: b3 :: old', h3 =>
    rw [hb] at h3
    simp only [List.take, List.cons.injEq, and_true] at h3
    obtain ⟨rfl, rfl, rfl⟩ := h3
    by_contra hp
    rw [Bool.not_eq_false] at hp
    cases tl with
    | nil =>
      cases sfx with
      | nil => simp [List.isPrefixOf] at hp
      | cons d ds =>
        simp only [List.nil_append, List.isPrefixOf, Bool.and_eq_true, beq_iff_eq] at hp
        exact hsfx (by simp [List.head?, ← hp.2.1])
    | cons d tl' =>
      cases tl' with
      | nil =>
        cases sfx with
        | nil =>
          simp [List.isPrefixOf] at hp
        | cons e es =>
          simp only [List.cons_append, List.nil_append, List.isPrefixOf,
            Bool.and_eq_true, beq_iff_eq] at hp
          exact hsfx (by simp [List.head?, ← hp.2.2.1])
      | cons e tl'' =>
        simp only [List.cons_append, List.isPrefixOf, Bool.and_eq_true,
          beq_iff_eq] at hp
        have hfalse := (containsL_cons_elim htl).1
        rw [hb, ← hp.1, ← hp.2.1, ← hp.2.2.1] at hfalse
        simp [List.isPrefixOf] at hfalse

theorem replaceFuel_append_no_ticks {old new : List Char} (h3 : old.take 3 = bt3) :
    ∀ (tl : List Char) (fuel : Nat) (sfx : List Char),
      containsL bt3 tl = false → sfx.head? ≠ some btick →
      replaceFuel old new (fuel + tl.length) (tl ++ sfx) =
        tl ++ replaceFuel old new fuel sfx := by
  intro tl
  induction tl with
  | nil => intro fuel sfx _ _; simp
  | cons c tl ih =>
    intro fuel sfx htl hsfx
    have hnp : old.isPrefixOf (c :: (tl ++ sfx)) = false :=
      not_prefix_of_take3 h3 htl hsfx
    have hlen : fuel + (c :: tl).length = (fuel + tl.length) + 1 := rfl
    rw [hlen, List.cons_append, replaceFuel_skip_step old new _ hnp,
      ih fuel sfx (containsL_cons_elim htl).2 hsfx]
    rfl

theorem replaceFuel_irrel (old new : List Char) :
    ∀ (f1 : Nat) (cs : List Char) (f2 : Nat), cs.length < f1 → cs.length < f2 →
      replaceFuel old new f1 cs = replaceFuel old new f2 cs := by
  intro f1
  induction f1 with
  | zero => intro cs f2 h1 _; exact absurd h1 (Nat.not_lt_zero _)
  | succ f ih =>
    intro cs f2 h1 h2
    cases cs with
    | nil => rw [replaceFuel_nil, replaceFuel_nil]
    | cons c rest =>
      cases f2 with
      | zero => exact absurd h2 (Nat.not_lt_zero _)
      | succ f2' =>
        have hrest : rest.length < f ∧ rest.length < f2' := by
          simp only [List.length_cons] at h1 h2
          omega
        by_cases hm : (!old.isEmpty && old.isPrefixOf (c :: rest)) = true
        · have ho : 1 ≤ old.length := by
            cases old with
            | nil => simp at hm
            | cons o os => simp [List.length_cons]
          have hdrop : ((c :: rest).drop old.length).length < f ∧
              ((c :: rest).drop old.length).length < f2' := by
            rw [List.length_drop]
            simp only [List.length_cons] at h1 h2 ⊢
            omega
          simp only [replaceFuel, hm, if_pos]
          exact congrArg _ (ih _ f2' hdrop.1 hdrop.2)
        · rw [Bool.not_eq_true] at hm
          simp only [replaceFuel, hm, Bool.false_eq_true, if_neg, not_false_iff]
          exact congrArg _ (ih rest f2' hrest.1 hrest.2)

theorem lstripL_cons_of_not_space {c : Char} (h : isPySpace c = false)
    (cs : List Char) : lstripL (c :: cs) = c :: cs := by
  simp [lstripL, List.dropWhile_cons, h]

theorem rstripL_eq_self_of_last {cs : List Char}
    (h : ∀ c, cs.getLast? = some c → isPySpace c = false) : rstripL cs = cs := by
  unfold rstripL
  cases hrev : cs.reverse with
  | nil =>
    have hnil : cs = [] := by simpa using congrArg List.reverse hrev
    simp [hnil]
  | cons d ds =>
    have hd : cs.getLast? = some d := by rw [← List.head?_reverse, hrev]; rfl
    rw [List.dropWhile_cons_of_neg (by simp [h d hd])]
    rw [← hrev, List.reverse_reverse]

theorem stripL_eq_self_of_ends {cs : List Char}
    (h1 : ∀ c, cs.head? = some c → isPySpace c = false)
    (h2 : ∀ c, cs.getLast? = some c → isPySpace c = false) : stripL cs = cs := by
  unfold stripL
  cases cs with
  | nil => rfl
  | cons c cs' =>
    rw [lstripL_cons_of_not_space (h1 c rfl)]
    exact rstripL_eq_self_of_last h2

theorem strip_self_parts {cs : List Char} (h : stripL cs = cs) :
    lstripL cs = cs ∧ rstripL cs = cs := by
  have hsub1 : List.Sublist (lstripL cs) cs := List.dropWhile_sublist _
  have hlen2 : (stripL cs).length ≤ (lstripL cs).length := by
    unfold stripL rstripL
    calc ((lstripL cs).reverse.dropWhile isPySpace).reverse.length
        = ((lstripL cs).reverse.dropWhile isPySpace).length := List.length_reverse _
      _ ≤ (lstripL cs).reverse.length := (List.dropWhile_sublist _).length_le
      _ = (lstripL cs).length := List.length_reverse _
  have hl : lstripL cs = cs := by
    apply hsub1.eq_of_length
    have heq := congrArg List.length h
    have hle := hsub1.length_le
    omega
  refine ⟨hl, ?_⟩
  have hs : stripL cs = rstripL cs := by unfold stripL; rw [hl]
  rw [← hs, h]

theorem head_not_space_of_strip_self {cs : List Char} (h : stripL cs = cs) :
    ∀ c cs', cs = c :: cs' → isPySpace c = false := by
  intro c cs' hcs
  subst hcs
  have hl := (strip_self_parts h).1
  by_contra hsp
  rw [Bool.not_eq_false] at hsp
  have hstep : lstripL (c :: cs') = lstripL cs' := by
    unfold lstripL
    rw [List.dropWhile_cons_of_pos (by simp [hsp])]
  have hlen : (lstripL cs').length ≤ cs'.length := (List.dropWhile_sublist _).length_le
  rw [hstep] at hl
  have := congrArg List.length hl
  simp only [List.length_cons] at this
  omega

theorem strip_self_reverse_dropWhile {cs : List Char} (h : stripL cs = cs) :
    cs.reverse.dropWhile isPySpace = cs.reverse := by
  have hr := (strip_self_parts h).2
  have := congrArg List.reverse hr
  unfold rstripL at this
  simpa using this

theorem stripL_newline_wrap {t : List Char} (hs : stripL t = t) (hne : t ≠ []) :
    stripL ('\n' :: (t ++ ['\n'])) = t := by
  obtain ⟨c, t', rfl⟩ : ∃ c t', t = c :: t' := by
    cases t with
    | nil => exact absurd rfl hne
    | cons c t' => exact ⟨c, t', rfl⟩
  have hc : isPySpace c = false := head_not_space_of_strip_self hs c t' rfl
  unfold stripL
  have h1 : lstripL ('\n' :: (c :: t' ++ ['\n'])) = c :: t' ++ ['\n'] := by
    unfold lstripL
    rw [List.dropWhile_cons_of_pos (by decide), List.cons_append,
      List.dropWhile_cons_of_neg (by simp [hc])]
  rw [h1]
  unfold rstripL
  rw [List.reverse_append, show (['\n'] : List Char).reverse = ['\n'] from rfl,
    List.singleton_append, List.dropWhile_cons_of_pos (by decide),
    strip_self_reverse_dropWhile hs, List.reverse_reverse]

theorem fenced_json_data (t : String) :
    ("```json\n" ++ t ++ "\n```").data =
      "```json".data ++ ('\n' :: (t.data ++ "\n```".data)) := by
  rw [String.data_append, String.data_append]
  rfl

theorem fenced_plain_data (t : String) :
    ("```\n" ++ t ++ "\n```").data =
      "```".data ++ ('\n' :: (t.data ++ "\n```".data)) := by
  rw [String.data_append, String.data_append]
  rfl

theorem bt3_isPrefixOf_newline_cons (xs : List Char) :
    (bt3.isPrefixOf ('\n' :: xs)) = false := by
  rw [show bt3 = btick :: btick :: btick :: ([] : List Char) from rfl]
  simp [List.isPrefixOf, show (btick == '\n') = false from by decide]

theorem containsL_newline_cons {xs : List Char} (h : containsL bt3 xs = false) :
    containsL bt3 ('\n' :: xs) = false := by
  unfold containsL
  rw [bt3_isPrefixOf_newline_cons, h]
  rfl

theorem pyReplace_json_fence {t : String} (ht : containsL bt3 t.data = false) :
    pyReplace ("```json\n" ++ t ++ "\n```") ("```json") ("") =
      String.mk ('\n' :: (t.data ++ "\n```".data)) := by
  unfold pyReplace
  congr 1
  rw [fenced_json_data, replaceFuel_match_step ("```json".data) _ _ _ (by decide),
    List.nil_append]
  have harith : ("```json".data ++ ('\n' :: (t.data ++ "\n```".data))).length =
      11 + ('\n' :: t.data).length := by
    simp [List.length_append, List.length_cons]
    omega
  rw [harith,
    show ('\n' :: (t.data ++ "\n```".data)) = ('\n' :: t.data) ++ "\n```".data from rfl,
    replaceFuel_append_no_ticks (by decide) ('\n' :: t.data) 11 ("\n```".data)
      (containsL_newline_cons ht) (by decide),
    show replaceFuel ("```json".data) ("".data) 11 ("\n```".data) = "\n```".data from
      by decide]

theorem pyReplace_tail_ticks {t : String} (ht : containsL bt3 t.data = false) :
    pyReplace (String.mk ('\n' :: (t.data ++ "\n```".data))) ("```") ("") =
      String.mk ('\n' :: (t.data ++ ['\n'])) := by
  unfold pyReplace
  congr 1
  show replaceFuel ("```".data) ("".data)
      (('\n' :: (t.data ++ "\n```".data)).length + 1) ('\n' :: (t.data ++ "\n```".data)) = _
  rw [replaceFuel_skip_step _ _ _ (bt3_isPrefixOf_newline_cons _)]
  have harith : ('\n' :: (t.data ++ "\n```".data)).length = 5 + t.data.length := by
    simp [List.length_append, List.length_cons]
    omega
  rw [harith,
    replaceFuel_append_no_ticks (by decide) t.data 5 ("\n```".data) ht (by decide),
    show replaceFuel ("```".data) ("".data) 5 ("\n```".data) = ['\n'] from by decide]

theorem pyReplace_plain_fence {t : String} (ht : containsL bt3 t.data = false) :
    pyReplace ("```\n" ++ t ++ "\n```") ("```") ("") =
      String.mk ('\n' :: (t.data ++ ['\n'])) := by
  unfold pyReplace
  congr 1
  rw [fenced_plain_data, replaceFuel_match_step ("```".data) _ _ _ (by decide),
    List.nil_append]
  have harith : ("```".data ++ ('\n' :: (t.data ++ "\n```".data))).length =
      7 + ('\n' :: t.data).length := by
    simp [List.length_append, List.length_cons]
    omega
  rw [harith,
    show ('\n' :: (t.data ++ "\n```".data)) = ('\n' :: t.data) ++ "\n```".data from rfl,
    replaceFuel_append_no_ticks (by decide) ('\n' :: t.data) 7 ("\n```".data)
      (containsL_newline_cons ht) (by decide),
    show replaceFuel ("```".data) ("".data) 7 ("\n```".data) = ['\n'] from by decide]
  rfl

theorem pyStrip_fenced_json (t : String) :
    pyStrip ("```json\n" ++ t ++ "\n```") = ("```json\n" ++ t ++ "\n```") := by
  have h : stripL ("```json\n" ++ t ++ "\n```").data = ("```json\n" ++ t ++ "\n```").data := by
    apply stripL_eq_self_of_ends
    · intro c hc
      rw [fenced_json_data,
        show ("```json".data ++ ('\n' :: (t.data ++ "\n```".data))).head? = some btick
          from rfl] at hc
      injection hc with hc
      subst hc
      decide
    · intro c hc
      rw [fenced_json_data, List.getLast?_append,
        show ('\n' :: (t.data ++ "\n```".data)) = ('\n' :: t.data) ++ "\n```".data from rfl,
        List.getLast?_append,
        show ("\n```".data).getLast? = some btick from rfl] at hc
      injection hc with hc
      subst hc
      decide
  show String.mk (stripL ("```json\n" ++ t ++ "\n```").data) = _
  rw [h]

theorem pyStrip_fenced_plain (t : String) :
    pyStrip ("```\n" ++ t ++ "\n```") = ("```\n" ++ t ++ "\n```") := by
  have h : stripL ("```\n" ++ t ++ "\n```").data = ("```\n" ++ t ++ "\n```").data := by
    apply stripL_eq_self_of_ends
    · intro c hc
      rw [fenced_plain_data,
        show ("```".data ++ ('\n' :: (t.data ++ "\n```".data))).head? = some btick
          from rfl] at hc
      injection hc with hc
      subst hc
      decide
    · intro c hc
      rw [fenced_plain_data, List.getLast?_append,
        show ('\n' :: (t.data ++ "\n```".data)) = ('\n' :: t.data) ++ "\n```".data from rfl,
        List.getLast?_append,
        show ("\n```".data).getLast? = some btick from rfl] at hc
      injection hc with hc
      subst hc
      decide
  show String.mk (stripL ("```\n" ++ t ++ "\n```").data) = _
  rw [h]

theorem startswith_fenced_json (t : String) :
    pyStartswith ("```json\n" ++ t ++ "\n```") ("```json") = true := by
  unfold pyStartswith
  rw [fenced_json_data]
  simp only [List.isPrefixOf_iff_prefix]
  exact List.prefix_append _ _

theorem startswith_plain_not_json (t : String) :
    pyStartswith ("```\n" ++ t ++ "\n```") ("```json") = false := by
  unfold pyStartswith
  rw [fenced_plain_data,
    show ("```".data ++ ('\n' :: (t.data ++ "\n```".data))) =
      btick :: btick :: btick :: '\n' :: (t.data ++ "\n```".data) from rfl,
    show ("```json".data) =
      btick :: btick :: btick :: 'j' :: 's' :: 'o' :: 'n' :: ([] : List Char) from rfl]
  simp [List.isPrefixOf, show ('j' == '\n') = false from by decide]

theorem startswith_plain_fence (t : String) :
    pyStartswith ("```\n" ++ t ++ "\n```") ("```") = true := by
  unfold pyStartswith
  rw [fenced_plain_data]
  simp only [List.isPrefixOf_iff_prefix]
  exact List.prefix_append _ _

theorem not_startswith_of_no_ticks {t : String} (ht : containsL bt3 t.data = false) :
    pyStartswith t ("```") = false ∧ pyStartswith t ("```json") = false := by
  have h3 : (bt3.isPrefixOf t.data) = false := by
    cases htd : t.data with
    | nil => rfl
    | cons c cs =>
      have h' : containsL bt3 (c :: cs) = false := htd ▸ ht
      exact (containsL_cons_elim h').1
  refine ⟨h3, ?_⟩
  by_contra h
  rw [Bool.not_eq_false] at h
  unfold pyStartswith at h
  rw [List.isPrefixOf_iff_prefix] at h
  have h3' : ¬ (bt3 <+: t.data) := by
    intro hp
    rw [← List.isPrefixOf_iff_prefix] at hp
    rw [h3] at hp
    exact Bool.false_ne_true hp
  exact h3' (List.IsPrefix.trans (by decide) h)

theorem cleanFences_plain {t : String} (hs : pyStrip t = t)
    (ht : containsL bt3 t.data = false) : cleanFences t = t := by
  obtain ⟨h3, h7⟩ := not_startswith_of_no_ticks ht
  simp [cleanFences, hs, h7, h3]

theorem cleanFences_fenced_json {t : String} (hs : pyStrip t = t) (hne : t ≠ "")
    (ht : containsL bt3 t.data = false) :
    cleanFences ("```json\n" ++ t ++ "\n```") = t := by
  have hsL : stripL t.data = t.data := congrArg String.data hs
  have hneL : t.data ≠ [] := fun h => hne (congrArg String.mk h)
  simp only [cleanFences, pyStrip_fenced_json, startswith_fenced_json, if_true]
  rw [pyReplace_json_fence ht, pyReplace_tail_ticks ht]
  show String.mk (stripL ('\n' :: (t.data ++ ['\n']))) = t
  rw [stripL_newline_wrap hsL hneL]

theorem cleanFences_fenced_plain {t : String} (hs : pyStrip t = t) (hne : t ≠ "")
    (ht : containsL bt3 t.data = false) :
    cleanFences ("```\n" ++ t ++ "\n```") = t := by
  have hsL : stripL t.data = t.data := congrArg String.data hs
  have hneL : t.data ≠ [] := fun h => hne (congrArg String.mk h)
  simp only [cleanFences, pyStrip_fenced_plain, startswith_plain_not_json,
    Bool.false_eq_true, if_false, startswith_plain_fence, if_true]
  rw [pyReplace_plain_fence ht]
  show String.mk (stripL ('\n' :: (t.data ++ ['\n']))) = t
  rw [stripL_newline_wrap hsL hneL]

/-! ### Dispatcher lemmas -/

theorem execute_command_eq (b : BResp) (cmd : String) :
    (execute_xdotool_command b cmd).command = cmd := by
  unfold execute_xdotool_command execute_try
  cases b with
  | raises msg => rfl
  | responds status text body =>
    by_cases hs : status = 200
    · subst hs
      cases body with
      | error m => rfl
      | ok result => cases result <;> rfl
    · simp [hs]

theorem dispatch_commands_length (behavior : Nat → String → BResp) :
    ∀ (cmds : List String) (i : Nat),
      (dispatch_commands behavior i cmds).1.length = cmds.length := by
  intro cmds
  induction cmds with
  | nil => intro i; rfl
  | cons hd tl ih => intro i; simp [dispatch_commands, ih]

theorem dispatch_commands_trace (behavior : Nat → String → BResp) :
    ∀ (cmds : List String) (i : Nat), (dispatch_commands behavior i cmds).2 = cmds := by
  intro cmds
  induction cmds with
  | nil => intro i; rfl
  | cons hd tl ih => intro i; simp [dispatch_commands, ih]

theorem dispatch_commands_commands (behavior : Nat → String → BResp) :
    ∀ (cmds : List String) (i : Nat),
      (dispatch_commands behavior i cmds).1.map Outcome.command = cmds := by
  intro cmds
  induction cmds with
  | nil => intro i; rfl
  | cons hd tl ih =>
    intro i
    simp [dispatch_commands, ih, execute_command_eq]

theorem dispatch_commands_get (behavior : Nat → String → BResp) :
    ∀ (cmds : List String) (i j : Nat) (c : String), cmds[j]? = some c →
      (dispatch_commands behavior i cmds).1[j]? =
        some (execute_xdotool_command (behavior (i + j) c) c) := by
  intro cmds
  induction cmds with
  | nil => intro i j c h; simp at h
  | cons hd tl ih =>
    intro i j c h
    cases j with
    | zero =>
      simp only [List.getElem?_cons_zero, Option.some.injEq] at h
      subst h
      simp [dispatch_commands]
    | succ j' =>
      simp only [List.getElem?_cons_succ] at h
      have hrec := ih (i + 1) j' c h
      simp only [dispatch_commands, List.getElem?_cons_succ]
      rw [show i + (j' + 1) = i + 1 + j' from by omega]
      exact hrec

/-! ### The claims -/

/-- C1 counterexample: the claim as stated also sends a *non-JSON body* to
the deterministic fallback planner, but the code returns a non-empty
unparseable body verbatim (line 292): with the backend enabled and replying
200 with body `not json`, generation returns `not json`, which is not the
fallback planner's answer for that input. -/
theorem c1_counterexample :
    generate_ai_response settingsEnabled (.responds 200 ("not json")) ag0 ("hello") =
      "not json" ∧
    generate_simple_ai_response ag0 ("hello") ≠ "not json" :=
  ⟨rfl, by decide⟩

/-- C1 amended: `_generate_ai_response` never lets an exception reach its
caller; on any raised backend exception, on a disabled provider or missing
credential, and on a blank unparseable body, control falls through to the
deterministic fallback planner; a *non-empty* non-JSON body is instead
returned verbatim.  In every case some text is returned. -/
theorem c1_generation_failure_policy (st : Settings) (b : BackendBehavior)
    (ag : AgentState) (m : String) :
    (∀ e, cometAttempt st b = .error e →
      generate_ai_response st b ag m = generate_simple_ai_response ag m) ∧
    (cometEnabled st = false →
      generate_ai_response st b ag m = generate_simple_ai_response ag m) ∧
    (∀ e, b = .raises e →
      generate_ai_response st b ag m = generate_simple_ai_response ag m) ∧
    (∀ code raw, b = .responds code raw → cometEnabled st = true →
      pyJsonLoads raw = none → pyStrip raw ≠ "" →
      generate_ai_response st b ag m = raw) ∧
    (∀ code raw, b = .responds code raw → pyJsonLoads raw = none →
      pyStrip raw = "" →
      generate_ai_response st b ag m = generate_simple_ai_response ag m) := by
  refine ⟨?_, ?_, ?_, ?_, ?_⟩
  · intro e he
    unfold generate_ai_response
    rw [he]
  · intro hd
    unfold generate_ai_response cometAttempt
    rw [hd]
    simp
  · intro e hb
    subst hb
    unfold generate_ai_response cometAttempt
    by_cases hen : cometEnabled st <;> simp [hen]
  · intro code raw hb hen hload hblank
    subst hb
    unfold generate_ai_response cometAttempt cometHandleRaw
    simp [hen, hload, hblank]
  · intro code raw hb hload hblank
    subst hb
    unfold generate_ai_response cometAttempt cometHandleRaw
    by_cases hen : cometEnabled st <;> simp [hen, hload, hblank]

/-- C1 witness: the amended failure policy at concrete inputs — a raised
exception falls through to the fallback planner, and a non-empty non-JSON
body is returned verbatim. -/
theorem c1_generation_failure_policy_witness :
    generate_ai_response settingsEnabled (.raises ("timeout")) ag0 ("hello") =
      generate_simple_ai_response ag0 ("hello") ∧
    generate_ai_response settingsEnabled (.responds 200 ("not json")) ag0 ("hello") =
      "not json" := by
  constructor
  · exact (c1_generation_failure_policy settingsEnabled (.raises ("timeout")) ag0
      ("hello")).2.2.1 "timeout" rfl
  · exact (c1_generation_failure_policy settingsEnabled (.responds 200 ("not json"))
      ag0 ("hello")).2.2.2.1 200 ("not json") rfl rfl rfl (by decide)

/-- C2: the dispatcher records one outcome per command; the j-th outcome is
exactly the caught result of the j-th boundary call on the j-th command, so
commands after a failing one are still dispatched with their outcomes
recorded; a raised transport exception and a non-200 response each yield an
outcome with `success := false`; and the `except` clause converts any raised
exception of a single dispatch into a failure outcome instead of letting it
escape. -/
theorem c2_partial_failure_tolerance (behavior : Nat → String → BResp)
    (cmds : List String) :
    ((dispatch_commands behavior 0 cmds).1.length = cmds.length) ∧
    (∀ j c, cmds[j]? = some c →
      (dispatch_commands behavior 0 cmds).1[j]? =
        some (execute_xdotool_command (behavior j c) c)) ∧
    (∀ e c, (execute_xdotool_command (.raises e) c).success = false) ∧
    (∀ code text body c, code ≠ 200 →
      (execute_xdotool_command (.responds code text body) c).success = false) ∧
    (∀ b c e, execute_try b c = .error e →
      execute_xdotool_command b c = ⟨c, false, none, none, some (.str e)⟩) := by
  refine ⟨dispatch_commands_length behavior cmds 0, ?_, ?_, ?_, ?_⟩
  · intro j c h
    have hrec := dispatch_commands_get behavior cmds 0 j c h
    simpa using hrec
  · intro e c
    rfl
  · intro code text body c h
    unfold execute_xdotool_command execute_try
    simp [h]
  · intro b c e he
    unfold execute_xdotool_command
    rw [he]

/-- C2 witness: with a boundary that raises on the first call and succeeds
afterwards, both outcomes are recorded, the first is a failure, and the
second command was still dispatched. -/
theorem c2_partial_failure_tolerance_witness :
    (dispatch_commands behav0 0 ["cmd a", "cmd b"]).1.length = 2 ∧
    (dispatch_commands behav0 0 ["cmd a", "cmd b"]).1[1]? =
      some (execute_xdotool_command (behav0 1 ("cmd b")) ("cmd b")) ∧
    (execute_xdotool_command (.raises ("ConnectionError: boom")) ("cmd a")).success =
      false := by
  refine ⟨(c2_partial_failure_tolerance behav0 ["cmd a", "cmd b"]).1, ?_, ?_⟩
  · exact (c2_partial_failure_tolerance behav0 ["cmd a", "cmd b"]).2.1 1 ("cmd b") rfl
  · exact (c2_partial_failure_tolerance behav0 ["cmd a", "cmd b"]).2.2.1
      "ConnectionError: boom" ("cmd a")

/-- C3: for every plan, the dispatcher produces one outcome per command with
`outcome[i].command = commands[i]` (stated as the projection of the outcome
list being the command list itself), and the trace of boundary calls issued
is exactly the command list in plan order — the sequential loop neither
drops, reorders nor parallelizes commands. -/
theorem c3_order_preservation (behavior : Nat → String → BResp)
    (cmds : List String) :
    ((dispatch_commands behavior 0 cmds).1.length = cmds.length) ∧
    ((dispatch_commands behavior 0 cmds).1.map Outcome.command = cmds) ∧
    ((dispatch_commands behavior 0 cmds).2 = cmds) :=
  ⟨dispatch_commands_length behavior cmds 0,
    dispatch_commands_commands behavior cmds 0,
    dispatch_commands_trace behavior cmds 0⟩

/-- C4 counterexample: fence invariance fails on a valid plan JSON whose
command text contains the fence marker, because the cleanup removes *every*
occurrence of the three-backtick string: unfenced extraction yields the
command `a```b`, fenced extraction yields `ab`. -/
theorem c4_counterexample :
    pyJsonLoads tbad =
      some (.obj [("action", .str "x"), ("commands", .arr [.str "a```b"])]) ∧
    extract_xdotool_commands tbad = .arr [.str "a```b"] ∧
    extract_xdotool_commands ("```json\n" ++ tbad ++ "\n```") = .arr [.str "ab"] ∧
    extract_xdotool_commands ("```json\n" ++ tbad ++ "\n```") ≠
      extract_xdotool_commands tbad := by
  refine ⟨rfl, rfl, rfl, ?_⟩
  intro h
  simp only [show extract_xdotool_commands ("```json\n" ++ tbad ++ "\n```") =
      .arr [.str "ab"] from rfl,
    show extract_xdotool_commands tbad = .arr [.str "a```b"] from rfl] at h
  simp at h

/-- C4 amended: extraction round-trips the serialized plan
`{action: "x", commands: ["a","b"]}`, and wrapping a valid plan JSON text in
triple-backtick fences — with the `json` language tag or without one —
yields the same extraction result as the unfenced input, provided the plan
text does not itself contain the fence marker (three consecutive backticks;
the counterexample shows the restriction is necessary). -/
theorem c4_extraction_roundtrip_and_fences :
    extract_xdotool_commands planXJson = .arr [.str "a", .str "b"] ∧
    (∀ (t : String) (fields : List (String × Json)) (v : Json),
      pyStrip t = t → t ≠ "" → pyContains t ("```") = false →
      pyJsonLoads t = some (.obj fields) → lookupLast fields ("commands") = some v →
      extract_xdotool_commands ("```json\n" ++ t ++ "\n```") =
        extract_xdotool_commands t ∧
      extract_xdotool_commands ("```\n" ++ t ++ "\n```") =
        extract_xdotool_commands t) := by
  refine ⟨rfl, ?_⟩
  intro t fields v hs hne ht hload hcmd
  have htL : containsL bt3 t.data = false := ht
  have hplain : extract_xdotool_commands t = v := by
    unfold extract_xdotool_commands
    rw [cleanFences_plain hs htL, hload]
    simp [hcmd]
  constructor
  · rw [hplain]
    unfold extract_xdotool_commands
    rw [cleanFences_fenced_json hs hne htL, hload]
    simp [hcmd]
  · rw [hplain]
    unfold extract_xdotool_commands
    rw [cleanFences_fenced_plain hs hne htL, hload]
    simp [hcmd]

/-- C4 witness: the fence-invariance half applied to the concrete serialized
plan, with every hypothesis checked on it. -/
theorem c4_extraction_witness :
    pyStrip planXJson = planXJson ∧ pyContains planXJson ("```") = false ∧
    extract_xdotool_commands ("```json\n" ++ planXJson ++ "\n```") =
      extract_xdotool_commands planXJson ∧
    extract_xdotool_commands ("```\n" ++ planXJson ++ "\n```") =
      extract_xdotool_commands planXJson := by
  have h := (c4_extraction_roundtrip_and_fences).2 planXJson
    [("action", .str "x"), ("commands", .arr [.str "a", .str "b"])]
    (.arr [.str "a", .str "b"]) (by decide) (by decide) (by decide) rfl rfl
  exact ⟨by decide, by decide, h.1, h.2⟩

/-! ### Message-window lemmas -/

theorem recent_history_eq_drop (h : List HistEntry) :
    recent_history h = h.drop (h.length - 5) := by
  unfold recent_history
  split
  · rfl
  · rw [Nat.sub_eq_zero_of_le (by omega), List.drop_zero]

/-- C5 counterexample: with an empty prior history, the message list built
for the backend is `[system, user, user]` — the new user turn appears twice
(once inside the history window, which already contains it, and once as the
final append), refuting "the new user turn appearing exactly once". -/
theorem c5_counterexample :
    process_build_messages ag0 ("hi") ("t0") =
      [⟨"system", system_prompt⟩, ⟨"user", "hi"⟩, ⟨"user", "hi"⟩] ∧
    (process_build_messages ag0 ("hi") ("t0")).count ⟨"user", "hi"⟩ = 2 :=
  ⟨rfl, by decide⟩

/-- C5 amended: the message list sent to the backend (the payload equals the
built list) is exactly one fixed system instruction, then the window of the
most recent at most five turns of the history *with the new user turn
already appended* (so at most four prior turns), then the new user turn
again — which therefore occurs at least twice. -/
theorem c5_message_window (ag : AgentState) (m ts : String) :
    (payload_messages (process_build_messages ag m ts) =
      process_build_messages ag m ts) ∧
    (process_build_messages ag m ts =
      (⟨"system", system_prompt⟩ : ChatMsg) ::
        (((ag.conversation_history ++ [(⟨"user", m, ts⟩ : HistEntry)]).drop
            ((ag.conversation_history ++ [(⟨"user", m, ts⟩ : HistEntry)]).length - 5)).map
          fun e => (⟨e.role, e.content⟩ : ChatMsg)) ++ [(⟨"user", m⟩ : ChatMsg)]) ∧
    2 ≤ (process_build_messages ag m ts).count ⟨"user", m⟩ := by
  refine ⟨rfl, ?_, ?_⟩
  · unfold process_build_messages build_messages historyAfterUserAppend
    rw [recent_history_eq_drop]
  · unfold process_build_messages build_messages historyAfterUserAppend
    have hmem : (⟨"user", m⟩ : ChatMsg) ∈
        (recent_history (ag.conversation_history ++ [(⟨"user", m, ts⟩ : HistEntry)])).map
          fun e => (⟨e.role, e.content⟩ : ChatMsg) := by
      rw [recent_history_eq_drop]
      have hk : (ag.conversation_history ++ [(⟨"user", m, ts⟩ : HistEntry)]).length - 5 ≤
          ag.conversation_history.length := by
        simp only [List.length_append, List.length_cons, List.length_nil]
        omega
      rw [List.drop_append_of_le_length hk]
      exact List.mem_map_of_mem _ (List.mem_append_right _ (List.mem_singleton_self _))
    have h1 : 1 ≤ ((recent_history (ag.conversation_history ++ [(⟨"user", m, ts⟩ : HistEntry)])).map
        fun e => (⟨e.role, e.content⟩ : ChatMsg)).count ⟨"user", m⟩ :=
      List.one_le_count_iff.mpr hmem
    have h2 : ((⟨"system", system_prompt⟩ : ChatMsg) == (⟨"user", m⟩ : ChatMsg)) = false := by
      simp
    have h3 : ((⟨"user", m⟩ : ChatMsg) == (⟨"user", m⟩ : ChatMsg)) = true := by simp
    have h4 : ((⟨"user", m⟩ : ChatMsg) == (⟨"system", system_prompt⟩ : ChatMsg)) = false := by
      simp
    simp only [List.count_append, List.count_cons, List.count_nil, List.count_singleton,
      h2, h3, h4, if_true, if_false]
    omega

/-- C6 counterexample: the deterministic fallback planner's search path is
only reachable when the input mentions `firefox`; for the bare input
`search weather jakarta` no branch matches and the planner answers with the
diagnostic echo plan — whose single command is neither a browser launch nor
a submit key press. -/
theorem c6_counterexample :
    generate_simple_ai_response ag0 ("search weather jakarta") =
      pyJsonDumps (.obj [("action", .str "Need more specific instructions"),
        ("commands", .arr [.str echoHelpCommand])]) ∧
    extract_xdotool_commands (generate_simple_ai_response ag0 ("search weather jakarta")) =
      .arr [.str echoHelpCommand] ∧
    echoHelpCommand ≠ "DISPLAY=:1 firefox-esr &" ∧
    echoHelpCommand ≠ "xdotool key Return" :=
  ⟨rfl, rfl, by decide, by decide⟩

/-- C6 amended: for the input `open firefox and search weather jakarta`
(the browser keyword is required for the search branch) the fallback plan
begins with the browser launch, contains a wait and the address-bar focus
key combination, types exactly the stop-word-stripped whitespace-collapsed
residual of the input, and ends with the submit key. -/
theorem c6_firefox_search_plan :
    generate_simple_ai_response ag0 ("open firefox and search weather jakarta") =
      pyJsonDumps (.obj
        [("action", .str "Opening Firefox and searching for weather jakarta"),
          ("commands", .arr (firefoxSearchCommands.map .str))]) ∧
    extract_xdotool_commands
        (generate_simple_ai_response ag0 ("open firefox and search weather jakarta")) =
      .arr (firefoxSearchCommands.map .str) ∧
    firefoxSearchCommands.head? = some "DISPLAY=:1 firefox-esr &" ∧
    "sleep 5" ∈ firefoxSearchCommands ∧
    "xdotool key ctrl+l" ∈ firefoxSearchCommands ∧
    pyStrip (pyJoinSplit (firefox_stop_words.foldl (fun t w => pyReplace t w (" "))
        (pyStrip (pyLower ("open firefox and search weather jakarta"))))) =
      "weather jakarta" ∧
    "xdotool type \"weather jakarta\"" ∈ firefoxSearchCommands ∧
    firefoxSearchCommands.getLast? = some "xdotool key Return" :=
  ⟨rfl, rfl, rfl, by decide, by decide, by decide, by decide, rfl⟩

/-- C7: with the generative backend disabled (any settings whose provider
check fails), the planner answer for `open calculator` is exactly the plan
`{"action": "Opening calculator", "commands": ["DISPLAY=:1 xcalc &"]}` —
executable name exactly `xcalc`. -/
theorem c7_calculator_plan (st : Settings) (b : BackendBehavior) (ag : AgentState)
    (h : cometEnabled st = false) :
    generate_ai_response st b ag ("open calculator") =
      pyJsonDumps (.obj [("action", .str "Opening calculator"),
        ("commands", .arr [.str "DISPLAY=:1 xcalc &"])]) ∧
    extract_xdotool_commands (generate_ai_response st b ag ("open calculator")) =
      .arr [.str "DISPLAY=:1 xcalc &"] := by
  have hgen : generate_ai_response st b ag ("open calculator") =
      generate_simple_ai_response ag ("open calculator") := by
    unfold generate_ai_response cometAttempt
    rw [h]
    simp
  rw [hgen]
  exact ⟨rfl, rfl⟩

/-- C7 witness: the calculator plan at a concrete disabled configuration. -/
theorem c7_calculator_plan_witness :
    generate_ai_response settingsDisabled (.responds 200 ("")) ag0 ("open calculator") =
      pyJsonDumps (.obj [("action", .str "Opening calculator"),
        ("commands", .arr [.str "DISPLAY=:1 xcalc &"])]) :=
  (c7_calculator_plan settingsDisabled (.responds 200 ("")) ag0 (by decide)).1

/-- C8: the deterministic fallback planner is a pure function of the user
message: its output does not depend on the agent state (`self`), so any two
calls on the same input — with arbitrary state evolution in between —
return byte-identical output. -/
theorem c8_fallback_determinism (s1 s2 : AgentState) (m : String) :
    generate_simple_ai_response s1 m = generate_simple_ai_response s2 m ∧
    (generate_simple_ai_response s1 m).data = (generate_simple_ai_response s2 m).data :=
  ⟨rfl, rfl⟩

/-- C9: the report composer short-circuits on an empty command list to the
single line `[REPORT]: No commands to execute.` — one line (no newline in
it), and the outcomes argument (and the response text) have no effect. -/
theorem c9_empty_plan_short_circuit (results : List Outcome) (resp : String) :
    generate_execution_report [] results resp =
      .ok "[REPORT]: No commands to execute." ∧
    ("[REPORT]: No commands to execute.".data.all fun c => c ≠ '\n') = true :=
  ⟨rfl, by decide⟩

/-- C10: the extractor returns the value bound to `commands` verbatim with
no element validation: on a plan whose `commands` is the string `ab` it
returns that string itself, and the dispatch loop of `process_message`,
iterating the string under Python semantics, then issues one boundary call
per character (`a`, then `b`). -/
theorem c10_commands_returned_verbatim :
    pyJsonLoads tstr = some (.obj [("action", .str "x"), ("commands", .str "ab")]) ∧
    extract_xdotool_commands tstr = .str "ab" ∧
    (∀ behavior : Nat → String → BResp,
      (process_commands_dyn behavior (.str "ab")).map (fun p => p.1.map Outcome.command) =
        some ["a", "b"]) := by
  refine ⟨rfl, rfl, ?_⟩
  intro behavior
  show some ((dispatch_commands behavior 0 ["a", "b"]).1.map Outcome.command) = _
  rw [dispatch_commands_commands behavior ["a", "b"] 0]
